import Mathlib

/-!
Verification development for an OpenGEX scene-structure library.

The data model below is a shallow embedding of the Rust structures in
`src/structure.rs`.  Rust `f32` payloads are never computed with by any
operation considered here (they are inert key/coordinate data), so they are
modelled by an abstract scalar type `F32` (coded as `Int`).  Rust `Vec` is
modelled by `List`, `HashMap<String, V>` by an association list keyed by
`String`, `vec_map::VecMap<V>` by an association list keyed by `Nat`, and
`u32` indices by `Nat`.  `Arc<T>` sharing is modelled by holding the value
directly; identity-based sharing is treated at the level of the shared object
table, as the spec describes it.
-/

namespace Opengex

/-- Scalar payload standing for Rust `f32`.  No arithmetic is ever performed
on these values by the operations under study, so an integer code suffices. -/
abbrev F32 := Int

/-- Source: `pub type Name = String;`. -/
abbrev Name := String

/-- Source: `pub type Param = f32;`. -/
abbrev Param := F32

/-- Source: `pub type ParamMap = HashMap<String, Param>;`. -/
abbrev ParamMap := List (String × Param)

/-- Source: `enum Color` with variants `Rgb(f32,f32,f32)` and
`Rgba(f32,f32,f32,f32)`. -/
inductive Color where
  | rgb (r g b : F32) : Color
  | rgba (r g b a : F32) : Color

/-- Source: `struct Transform([f32; 16])` — a single 4x4 matrix stored as 16
floats. -/
structure Transform where
  entries : { l : List F32 // l.length = 16 }

/-- Source: `enum Translation` with variants `X(f32)`, `Y(f32)`, `Z(f32)`,
`Xyz(f32,f32,f32)`. -/
inductive Translation where
  | x (a : F32) : Translation
  | y (a : F32) : Translation
  | z (a : F32) : Translation
  | xyz (a b c : F32) : Translation

/-- Source: `enum Rotation` with variants `X(f32)`, `Y(f32)`, `Z(f32)`,
`Axis(f32,f32,f32,f32)` (angle then axis components), and
`Quaternion(f32,f32,f32,f32)`. -/
inductive Rotation where
  | x (a : F32) : Rotation
  | y (a : F32) : Rotation
  | z (a : F32) : Rotation
  | axis (angle ax ay az : F32) : Rotation
  | quaternion (w qx qy qz : F32) : Rotation

/-- Source: `enum Scale` with variants `X(f32)`, `Y(f32)`, `Z(f32)`,
`Xyz(f32,f32,f32)`. -/
inductive Scale where
  | x (a : F32) : Scale
  | y (a : F32) : Scale
  | z (a : F32) : Scale
  | xyz (a b c : F32) : Scale

/-- Source: `enum Transformation` wrapping `Transform`, `Translation`,
`Rotation` and `Scale`. -/
inductive Transformation where
  | transform (t : Transform) : Transformation
  | translation (t : Translation) : Transformation
  | rotation (r : Rotation) : Transformation
  | scale (s : Scale) : Transformation

/-- Source: `struct MorphWeight` with fields `target_index: u32` and
`weight: f32`. -/
structure MorphWeight where
  target_index : Nat
  weight : F32

/-- Source: `enum Time` with variants `Linear(Vec<f32>)` and
`Bézier(Vec<(f32,f32,f32)>)` (the accent is not a valid Lean identifier
character, so the constructor is named `bezier`).  One vector item is one key
time. -/
inductive Time where
  | linear (keys : List F32) : Time
  | bezier (keys : List (F32 × F32 × F32)) : Time

/-- Source: `enum Value` with variants `Constant(Vec<f32>)`,
`Linear(Vec<f32>)`, `Bézier(Vec<(f32,f32,f32)>)` and
`Tcb(Vec<(f32,f32,f32,f32)>)`.  One vector item is one key value. -/
inductive Value where
  | constant (keys : List F32) : Value
  | linear (keys : List F32) : Value
  | bezier (keys : List (F32 × F32 × F32)) : Value
  | tcb (keys : List (F32 × F32 × F32 × F32)) : Value

/-- Source: `enum TrackTarget` wrapping `Arc<Transformation>` or
`Arc<MorphWeight>`; the referenced value is held directly here. -/
inductive TrackTarget where
  | transformation (t : Transformation) : TrackTarget
  | morphWeight (w : MorphWeight) : TrackTarget

/-- Source: `struct Track` with fields `target: TrackTarget`, `time: Time`,
`value: Value`. -/
structure Track where
  target : TrackTarget
  time : Time
  value : Value

/-- Source: `struct Animation` with fields `clip: u32`, `begin: Option<f32>`,
`end: Option<f32>`, `tracks: Vec<Track>`. -/
structure Animation where
  clip : Nat
  begin : Option F32
  «end» : Option F32
  tracks : List Track

/-- Source: `struct Texture` with fields `texcoord: u32`,
`file_name: String`, `transformations: Vec<Transformation>`,
`animation: Vec<Animation>`. -/
structure Texture where
  texcoord : Nat
  file_name : String
  transformations : List Transformation
  animation : List Animation

/-- Source: `struct Material` with fields `two_sided: bool`,
`name: Option<Name>`, `color: HashMap<String, Color>`, `param: ParamMap`,
`texture: HashMap<String, Texture>`. -/
structure Material where
  two_sided : Bool
  name : Option Name
  color : List (String × Color)
  param : ParamMap
  texture : List (String × Texture)

/-- Source: `enum AttenuationKind` with variants `Distance`, `Angle`,
`CosAngle`. -/
inductive AttenuationKind where
  | distance : AttenuationKind
  | angle : AttenuationKind
  | cosAngle : AttenuationKind

/-- Source: `enum AttenuationCurve` with variants `Linear`, `Cubic`,
`Inverse`, `InverseSquare`. -/
inductive AttenuationCurve where
  | linear : AttenuationCurve
  | cubic : AttenuationCurve
  | inverse : AttenuationCurve
  | inverseSquare : AttenuationCurve

/-- Source: `struct Atten` with fields `kind: AttenuationKind`,
`curve: AttenuationCurve`, `params: ParamMap`. -/
structure Atten where
  kind : AttenuationKind
  curve : AttenuationCurve
  params : ParamMap

/-- Source: `enum GeometricPrimitive` with variants `Points`, `Lines`,
`LineStrip`, `Triangles`, `TriangleStrip`, `Quads`. -/
inductive GeometricPrimitive where
  | points : GeometricPrimitive
  | lines : GeometricPrimitive
  | lineStrip : GeometricPrimitive
  | triangles : GeometricPrimitive
  | triangleStrip : GeometricPrimitive
  | quads : GeometricPrimitive

/-- Source: `impl Default for GeometricPrimitive` returns
`GeometricPrimitive::Triangles`. -/
def GeometricPrimitive.default : GeometricPrimitive :=
  GeometricPrimitive.triangles

/-- Source: `struct Mesh` with field `primitive: GeometricPrimitive`. -/
structure Mesh where
  primitive : GeometricPrimitive

/-- Source: `struct Morph` with fields `base_target_index: Option<u32>`,
`name: Option<Name>`. -/
structure Morph where
  base_target_index : Option Nat
  name : Option Name

/-- Source: `struct GeometryObject` with fields `visible: bool`,
`casts_shadows: bool`, `motion_blur: bool`, `meshes: VecMap<Mesh>`,
`morphs: VecMap<Morph>`. -/
structure GeometryObject where
  visible : Bool
  casts_shadows : Bool
  motion_blur : Bool
  meshes : List (Nat × Mesh)
  morphs : List (Nat × Morph)

/-- Source: `struct CameraObject` with fields `params: ParamMap`,
`colors: HashMap<String, Color>`, `textures: HashMap<String, Texture>`. -/
structure CameraObject where
  params : ParamMap
  colors : List (String × Color)
  textures : List (String × Texture)

/-- Source: `enum LightType` with variants `Infinite`, `Point`, `Spot`. -/
inductive LightType where
  | infinite : LightType
  | point : LightType
  | spot : LightType

/-- Source: `struct LightObject` with fields `light_type: LightType`,
`casts_shadows: bool`, `colors`, `params`, `textures`,
`attenuations: Atten`. -/
structure LightObject where
  light_type : LightType
  casts_shadows : Bool
  colors : List (String × Color)
  params : ParamMap
  textures : List (String × Texture)
  attenuations : Atten

mutual

/-- Source: `enum Nodes` wrapping `Node`, `BoneNode`, `GeometryNode`,
`CameraNode`, `LightNode`. -/
inductive Nodes where
  | node (n : Node) : Nodes
  | boneNode (n : BoneNode) : Nodes
  | geometryNode (n : GeometryNode) : Nodes
  | cameraNode (n : CameraNode) : Nodes
  | lightNode (n : LightNode) : Nodes

/-- Source: `node! { pub struct Node {} }` — the `node!` macro prepends the
common fields `name`, `transformations`, `animations`, `children`. -/
inductive Node where
  | mk (name : Option Name) (transformations : List Transformation)
      (animations : List Animation) (children : List Nodes) : Node

/-- Source: `node! { pub struct BoneNode {} }`. -/
inductive BoneNode where
  | mk (name : Option Name) (transformations : List Transformation)
      (animations : List Animation) (children : List Nodes) : BoneNode

/-- Source: `node! { pub struct GeometryNode { visibile, casts_shadows,
motion_blur, geometry, materials, morph_weights } }`; the field name
`visibile` is spelled as in the source. -/
inductive GeometryNode where
  | mk (name : Option Name) (transformations : List Transformation)
      (animations : List Animation) (children : List Nodes)
      (visibile : Option Bool) (casts_shadows : Option Bool)
      (motion_blur : Option Bool) (geometry : GeometryObject)
      (materials : List (Nat × Material))
      (morph_weights : List MorphWeight) : GeometryNode

/-- Source: `node! { pub struct CameraNode { camera } }`. -/
inductive CameraNode where
  | mk (name : Option Name) (transformations : List Transformation)
      (animations : List Animation) (children : List Nodes)
      (camera : CameraObject) : CameraNode

/-- Source: `node! { pub struct LightNode { visibile, light } }`. -/
inductive LightNode where
  | mk (name : Option Name) (transformations : List Transformation)
      (animations : List Animation) (children : List Nodes)
      (visibile : Option Bool) (light : LightObject) : LightNode

end

/-! Projections for the node structures (the `node!` macro expands to plain
Rust structs whose first four fields are the common ones; the single-constructor
inductives above mirror those structs, and the functions below are their field
accessors). -/

/-- Field accessor `Node.name`. -/
def Node.name : Node → Option Name
  | .mk n _ _ _ => n

/-- Field accessor `Node.transformations`. -/
def Node.transformations : Node → List Transformation
  | .mk _ t _ _ => t

/-- Field accessor `Node.animations`. -/
def Node.animations : Node → List Animation
  | .mk _ _ a _ => a

/-- Field accessor `Node.children`. -/
def Node.children : Node → List Nodes
  | .mk _ _ _ c => c

/-- Field accessor `BoneNode.name`. -/
def BoneNode.name : BoneNode → Option Name
  | .mk n _ _ _ => n

/-- Field accessor `BoneNode.transformations`. -/
def BoneNode.transformations : BoneNode → List Transformation
  | .mk _ t _ _ => t

/-- Field accessor `BoneNode.animations`. -/
def BoneNode.animations : BoneNode → List Animation
  | .mk _ _ a _ => a

/-- Field accessor `BoneNode.children`. -/
def BoneNode.children : BoneNode → List Nodes
  | .mk _ _ _ c => c

/-- Field accessor `GeometryNode.name`. -/
def GeometryNode.name : GeometryNode → Option Name
  | .mk n _ _ _ _ _ _ _ _ _ => n

/-- Field accessor `GeometryNode.transformations`. -/
def GeometryNode.transformations : GeometryNode → List Transformation
  | .mk _ t _ _ _ _ _ _ _ _ => t

/-- Field accessor `GeometryNode.animations`. -/
def GeometryNode.animations : GeometryNode → List Animation
  | .mk _ _ a _ _ _ _ _ _ _ => a

/-- Field accessor `GeometryNode.children`. -/
def GeometryNode.children : GeometryNode → List Nodes
  | .mk _ _ _ c _ _ _ _ _ _ => c

/-- Field accessor `GeometryNode.geometry`. -/
def GeometryNode.geometry : GeometryNode → GeometryObject
  | .mk _ _ _ _ _ _ _ g _ _ => g

/-- Field accessor `GeometryNode.morph_weights`. -/
def GeometryNode.morph_weights : GeometryNode → List MorphWeight
  | .mk _ _ _ _ _ _ _ _ _ w => w

/-- Field accessor `CameraNode.name`. -/
def CameraNode.name : CameraNode → Option Name
  | .mk n _ _ _ _ => n

/-- Field accessor `CameraNode.transformations`. -/
def CameraNode.transformations : CameraNode → List Transformation
  | .mk _ t _ _ _ => t

/-- Field accessor `CameraNode.animations`. -/
def CameraNode.animations : CameraNode → List Animation
  | .mk _ _ a _ _ => a

/-- Field accessor `CameraNode.children`. -/
def CameraNode.children : CameraNode → List Nodes
  | .mk _ _ _ c _ => c

/-- Field accessor `LightNode.name`. -/
def LightNode.name : LightNode → Option Name
  | .mk n _ _ _ _ _ => n

/-- Field accessor `LightNode.transformations`. -/
def LightNode.transformations : LightNode → List Transformation
  | .mk _ t _ _ _ _ => t

/-- Field accessor `LightNode.animations`. -/
def LightNode.animations : LightNode → List Animation
  | .mk _ _ a _ _ _ => a

/-- Field accessor `LightNode.children`. -/
def LightNode.children : LightNode → List Nodes
  | .mk _ _ _ c _ _ => c

/-- The four fields that the `node!` macro prepends to every node structure:
an optional name, the ordered transformation list, the ordered animation
list, and the ordered list of child nodes. -/
structure CommonNodeFields where
  name : Option Name
  transformations : List Transformation
  animations : List Animation
  children : List Nodes

/-- Extract the four common `node!` fields from any `Nodes` variant.  The
totality of this definition over all five variants is itself evidence that
each variant carries all four fields. -/
def Nodes.commonFields : Nodes → CommonNodeFields
  | .node n => ⟨n.name, n.transformations, n.animations, n.children⟩
  | .boneNode n => ⟨n.name, n.transformations, n.animations, n.children⟩
  | .geometryNode n => ⟨n.name, n.transformations, n.animations, n.children⟩
  | .cameraNode n => ⟨n.name, n.transformations, n.animations, n.children⟩
  | .lightNode n => ⟨n.name, n.transformations, n.animations, n.children⟩

/-- The referenced geometry object of a node, when the node is a
`GeometryNode`. -/
def Nodes.geometryOf : Nodes → Option GeometryObject
  | .geometryNode n => some n.geometry
  | _ => none

/-! Observers on the transformation variants, reading back the ordered float
arguments each constructor carries. -/

/-- The ordered float arguments carried by a `Translation` variant. -/
def Translation.args : Translation → List F32
  | .x a => [a]
  | .y a => [a]
  | .z a => [a]
  | .xyz a b c => [a, b, c]

/-- The ordered float arguments carried by a `Rotation` variant. -/
def Rotation.args : Rotation → List F32
  | .x a => [a]
  | .y a => [a]
  | .z a => [a]
  | .axis angle ax ay az => [angle, ax, ay, az]
  | .quaternion w qx qy qz => [w, qx, qy, qz]

/-- The ordered float arguments carried by a `Scale` variant. -/
def Scale.args : Scale → List F32
  | .x a => [a]
  | .y a => [a]
  | .z a => [a]
  | .xyz a b c => [a, b, c]

/-! Observers on the animation curve types.  Per the source doc comments on
`Time` and `Value`, one vector item represents one key, so the key count of a
curve is the length of the vector its variant carries. -/

/-- Number of keys held by a `Time` curve. -/
def Time.keyCount : Time → Nat
  | .linear keys => keys.length
  | .bezier keys => keys.length

/-- Number of keys held by a `Value` curve. -/
def Value.keyCount : Value → Nat
  | .constant keys => keys.length
  | .linear keys => keys.length
  | .bezier keys => keys.length
  | .tcb keys => keys.length

/-- One key of the `Value::Tcb` variant. -/
abbrev TcbKey := F32 × F32 × F32 × F32

/-- Component reading per the source doc comment on `Value::Tcb`: the tuple
components are "the 'value', 'tension', 'bias' and 'continuity' values of the
TCB spline respectively" — so the first component is the value. -/
def TcbKey.value (k : TcbKey) : F32 := k.1

/-- Second component of a `Value::Tcb` key: per the source doc comment, the
tension. -/
def TcbKey.tension (k : TcbKey) : F32 := k.2.1

/-- Third component of a `Value::Tcb` key: per the source doc comment, the
bias. -/
def TcbKey.bias (k : TcbKey) : F32 := k.2.2.1

/-- Fourth component of a `Value::Tcb` key: per the source doc comment, the
continuity. -/
def TcbKey.continuity (k : TcbKey) : F32 := k.2.2.2

/-!
Document assembly.  The repository's assembly code is unwritten scaffolding
(`scene.rs` and `io/read.rs` stop at parsing), so the document-assembly
subsystem below is modelled from the specification: the variant classifier
(spec section 4.1), the shared object table (4.3), the scene graph builder
(4.4) and the error taxonomy (section 7).
-/

/-- Modelled from the spec: the substructure categories handled by the
variant classifier.  Of the spec's five categories the three transformation
categories have a fixed per-kind argument arity; the Time/Value curve kinds
carry whole key sequences instead of a fixed-arity argument list, so the
arity-checked classifier is modelled over Translation, Rotation and Scale. -/
inductive Category where
  | translation : Category
  | rotation : Category
  | scale : Category

/-- Modelled from the spec: the error taxonomy of section 7, plus the
key-count mismatch failure of the Track invariant (section 8), all fatal to
the current assembly. -/
inductive AssembleError where
  | unknownVariant (category : Category) (kind : String) : AssembleError
  | arityMismatch (expected actual : Nat) : AssembleError
  | unresolvedReference (name : String) : AssembleError
  | duplicateObjectName (name : String) : AssembleError
  | invalidTrackTarget (node : Option Name) (position : Nat) : AssembleError
  | duplicateMorphTarget (index : Nat) : AssembleError
  | unresolvedMaterialSlot (index : Nat) : AssembleError
  | keyCountMismatch (timeKeys valueKeys : Nat) : AssembleError

/-- Internal kind tags for Translation and Scale substructures (both share
the kinds x, y, z, xyz). -/
inductive TranslationKind where
  | x : TranslationKind
  | y : TranslationKind
  | z : TranslationKind
  | xyz : TranslationKind

/-- Internal kind tags for Rotation substructures. -/
inductive RotationKind where
  | x : RotationKind
  | y : RotationKind
  | z : RotationKind
  | axis : RotationKind
  | quaternion : RotationKind

/-- Modelled from the spec: the string-to-kind mapping for Translation and
Scale substructures. -/
def parseTranslationKind (s : String) : Option TranslationKind :=
  if s = "x" then some .x
  else if s = "y" then some .y
  else if s = "z" then some .z
  else if s = "xyz" then some .xyz
  else none

/-- Modelled from the spec: the string-to-kind mapping for Rotation
substructures. -/
def parseRotationKind (s : String) : Option RotationKind :=
  if s = "x" then some .x
  else if s = "y" then some .y
  else if s = "z" then some .z
  else if s = "axis" then some .axis
  else if s = "quaternion" then some .quaternion
  else none

/-- Number of float arguments expected by a Translation or Scale kind. -/
def TranslationKind.arity : TranslationKind → Nat
  | .x => 1
  | .y => 1
  | .z => 1
  | .xyz => 3

/-- Number of float arguments expected by a Rotation kind. -/
def RotationKind.arity : RotationKind → Nat
  | .x => 1
  | .y => 1
  | .z => 1
  | .axis => 4
  | .quaternion => 4

/-- Modelled from the spec: the expected argument arity for a recognized
(category, kind) pair, `none` when the kind is not recognized for the
category. -/
def recognizedArity : Category → String → Option Nat
  | .translation, kind => (parseTranslationKind kind).map TranslationKind.arity
  | .rotation, kind => (parseRotationKind kind).map RotationKind.arity
  | .scale, kind => (parseTranslationKind kind).map TranslationKind.arity

/-- Modelled from the spec: build a `Translation` variant from a recognized
kind and the ordered arguments, validating arity. -/
def classifyTranslation : TranslationKind → List F32 → Except AssembleError Translation
  | .x, [a] => .ok (.x a)
  | .y, [a] => .ok (.y a)
  | .z, [a] => .ok (.z a)
  | .xyz, [a, b, c] => .ok (.xyz a b c)
  | k, args => .error (.arityMismatch k.arity args.length)

/-- Modelled from the spec: build a `Rotation` variant from a recognized kind
and the ordered arguments, validating arity. -/
def classifyRotation : RotationKind → List F32 → Except AssembleError Rotation
  | .x, [a] => .ok (.x a)
  | .y, [a] => .ok (.y a)
  | .z, [a] => .ok (.z a)
  | .axis, [angle, ax, ay, az] => .ok (.axis angle ax ay az)
  | .quaternion, [w, qx, qy, qz] => .ok (.quaternion w qx qy qz)
  | k, args => .error (.arityMismatch k.arity args.length)

/-- Modelled from the spec: build a `Scale` variant from a recognized kind
and the ordered arguments, validating arity. -/
def classifyScale : TranslationKind → List F32 → Except AssembleError Scale
  | .x, [a] => .ok (.x a)
  | .y, [a] => .ok (.y a)
  | .z, [a] => .ok (.z a)
  | .xyz, [a, b, c] => .ok (.xyz a b c)
  | k, args => .error (.arityMismatch k.arity args.length)

/-- Modelled from the spec (section 4.1): the variant classifier.  Given a
substructure's category, its kind string and its ordered float arguments, it
produces the matching `Transformation` variant; an unrecognized kind fails
with `unknownVariant` and a wrong argument count for a recognized kind fails
with `arityMismatch`. -/
def classify (cat : Category) (kind : String) (args : List F32) :
    Except AssembleError Transformation :=
  match cat with
  | .translation =>
    match parseTranslationKind kind with
    | none => .error (.unknownVariant .translation kind)
    | some k => (classifyTranslation k args).map Transformation.translation
  | .rotation =>
    match parseRotationKind kind with
    | none => .error (.unknownVariant .rotation kind)
    | some k => (classifyRotation k args).map Transformation.rotation
  | .scale =>
    match parseTranslationKind kind with
    | none => .error (.unknownVariant .scale kind)
    | some k => (classifyScale k args).map Transformation.scale

/-- Declared names present in a shared object table, in insertion order. -/
def sharedKeys {α : Type} (t : List (String × α)) : List String :=
  t.map Prod.fst

/-- Modelled from the spec (section 4.3): inserting into the shared object
table under an already-used name fails with `duplicateObjectName`; a fresh
name is appended. -/
def insertShared {α : Type} (t : List (String × α)) (name : String) (obj : α) :
    Except AssembleError (List (String × α)) :=
  if name ∈ sharedKeys t then .error (.duplicateObjectName name)
  else .ok (t ++ [(name, obj)])

/-- Modelled from the spec (section 4.2): resolving a name against the shared
object table returns the entity stored under the first matching key; a name
not present fails with `unresolvedReference`. -/
def resolveShared {α : Type} (t : List (String × α)) (name : String) :
    Except AssembleError α :=
  match t.find? (fun p => p.1 == name) with
  | some p => .ok p.2
  | none => .error (.unresolvedReference name)

/-- Modelled from the spec: the registration pass, inserting each declared
(name, object) pair in order into the table, aborting on the first duplicate
name. -/
def registerShared {α : Type} :
    List (String × α) → List (String × α) → Except AssembleError (List (String × α))
  | [], t => .ok t
  | (n, o) :: rest, t =>
    match insertShared t n o with
    | .ok t2 => registerShared rest t2
    | .error e => .error e

/-- Modelled from the spec: the deduplicated shared object tables of the
Scene Document, one per shared-object type. -/
structure SharedObjectTables where
  geometries : List (String × GeometryObject)
  cameras : List (String × CameraObject)
  lights : List (String × LightObject)
  materials : List (String × Material)

/-- Modelled from the spec: raw input for one animation track — a resolved
target together with the parsed time and value curves, prior to the
key-count validation. -/
structure TrackInput where
  target : TrackTarget
  time : Time
  value : Value

/-- Modelled from the spec: raw input for one animation. -/
structure AnimationInput where
  clip : Nat
  begin : Option F32
  «end» : Option F32
  tracks : List TrackInput

/-- Modelled from the spec (sections 3 and 8): assembling a track checks that
the Time curve and the Value curve hold the same number of keys, and fails
with `keyCountMismatch` otherwise. -/
def assembleTrack (inp : TrackInput) : Except AssembleError Track :=
  if inp.time.keyCount = inp.value.keyCount then
    .ok ⟨inp.target, inp.time, inp.value⟩
  else
    .error (.keyCountMismatch inp.time.keyCount inp.value.keyCount)

/-- Modelled from the spec: assembling an animation assembles its tracks in
order, aborting on the first failing track. -/
def assembleAnimation (inp : AnimationInput) : Except AssembleError Animation := do
  let tracks ← inp.tracks.mapM assembleTrack
  .ok ⟨inp.clip, inp.begin, inp.«end», tracks⟩

/-- Modelled from the spec: assemble a list of animations in declaration
order, aborting on the first failure. -/
def assembleAnimations (l : List AnimationInput) : Except AssembleError (List Animation) :=
  l.mapM assembleAnimation

/-- Modelled from the spec (section 4.4): validate that the morph-weight
target indices of a GeometryNode are pairwise distinct, failing with
`duplicateMorphTarget` at the first index already seen. -/
def validateMorphWeights : List MorphWeight → List Nat → Except AssembleError Unit
  | [], _ => .ok ()
  | w :: rest, seen =>
    if w.target_index ∈ seen then .error (.duplicateMorphTarget w.target_index)
    else validateMorphWeights rest (w.target_index :: seen)

/-- Modelled from the spec: resolve each material slot's named reference
against the material table, in order, aborting on the first unresolved
name. -/
def resolveMaterialSlots (mats : List (String × Material)) :
    List (Nat × String) → Except AssembleError (List (Nat × Material))
  | [] => .ok []
  | (i, ref) :: rest => do
    let m ← resolveShared mats ref
    let tail ← resolveMaterialSlots mats rest
    .ok ((i, m) :: tail)

/-- Modelled from the spec: classify each raw (category, kind, args)
transformation triple of a node in declaration order, aborting on the first
classification failure. -/
def classifyTransformations :
    List (Category × String × List F32) → Except AssembleError (List Transformation)
  | [] => .ok []
  | (cat, kind, args) :: rest => do
    let t ← classify cat kind args
    let ts ← classifyTransformations rest
    .ok (t :: ts)

/-- Modelled from the spec: the raw, parsed-but-unresolved input tree for one
scene node, mirroring the five node variants.  References to shared objects
are carried as declared names, transformations as raw kind-tagged triples. -/
inductive NodeInput where
  | node (name : Option Name) (transformations : List (Category × String × List F32))
      (animations : List AnimationInput) (children : List NodeInput) : NodeInput
  | boneNode (name : Option Name) (transformations : List (Category × String × List F32))
      (animations : List AnimationInput) (children : List NodeInput) : NodeInput
  | geometryNode (name : Option Name)
      (transformations : List (Category × String × List F32))
      (animations : List AnimationInput) (children : List NodeInput)
      (visibile : Option Bool) (casts_shadows : Option Bool)
      (motion_blur : Option Bool) (geometry_ref : String)
      (material_refs : List (Nat × String))
      (morph_weights : List MorphWeight) : NodeInput
  | cameraNode (name : Option Name)
      (transformations : List (Category × String × List F32))
      (animations : List AnimationInput) (children : List NodeInput)
      (camera_ref : String) : NodeInput
  | lightNode (name : Option Name)
      (transformations : List (Category × String × List F32))
      (animations : List AnimationInput) (children : List NodeInput)
      (visibile : Option Bool) (light_ref : String) : NodeInput

mutual

/-- Modelled from the spec (section 4.4): assemble one scene node — classify
its transformations, assemble its animations, recurse into its children in
declaration order, resolve its shared-object references against the tables
and validate the GeometryNode invariants — aborting on the first failure. -/
def assembleNode (t : SharedObjectTables) : NodeInput → Except AssembleError Nodes
  | .node name rawts anims children => do
    let ts ← classifyTransformations rawts
    let anims2 ← assembleAnimations anims
    let cs ← assembleNodeList t children
    .ok (.node (.mk name ts anims2 cs))
  | .boneNode name rawts anims children => do
    let ts ← classifyTransformations rawts
    let anims2 ← assembleAnimations anims
    let cs ← assembleNodeList t children
    .ok (.boneNode (.mk name ts anims2 cs))
  | .geometryNode name rawts anims children vis shadows blur gref mrefs mws => do
    let ts ← classifyTransformations rawts
    let anims2 ← assembleAnimations anims
    let cs ← assembleNodeList t children
    let geo ← resolveShared t.geometries gref
    let mats ← resolveMaterialSlots t.materials mrefs
    let _ ← validateMorphWeights mws []
    .ok (.geometryNode (.mk name ts anims2 cs vis shadows blur geo mats mws))
  | .cameraNode name rawts anims children cref => do
    let ts ← classifyTransformations rawts
    let anims2 ← assembleAnimations anims
    let cs ← assembleNodeList t children
    let cam ← resolveShared t.cameras cref
    .ok (.cameraNode (.mk name ts anims2 cs cam))
  | .lightNode name rawts anims children vis lref => do
    let ts ← classifyTransformations rawts
    let anims2 ← assembleAnimations anims
    let cs ← assembleNodeList t children
    let light ← resolveShared t.lights lref
    .ok (.lightNode (.mk name ts anims2 cs vis light))

/-- Modelled from the spec: assemble a list of sibling nodes in declaration
order, aborting on the first failing node. -/
def assembleNodeList (t : SharedObjectTables) : List NodeInput → Except AssembleError (List Nodes)
  | [] => .ok []
  | x :: rest => do
    let n ← assembleNode t x
    let ns ← assembleNodeList t rest
    .ok (n :: ns)

end

/-- Modelled from the spec: the whole raw input — the declared shared objects
of each type and the top-level node trees. -/
structure SceneInput where
  geometries : List (String × GeometryObject)
  cameras : List (String × CameraObject)
  lights : List (String × LightObject)
  materials : List (String × Material)
  roots : List NodeInput

/-- Modelled from the spec: the frozen Scene Document — the ordered roots and
the shared object tables (metric handling is not modelled; no claim concerns
it). -/
structure SceneDocument where
  roots : List Nodes
  shared : SharedObjectTables

/-- Modelled from the spec (two-pass design, section 4.2): the first pass
registers every declared shared object of each type, aborting on the first
duplicate name. -/
def registerAll (inp : SceneInput) : Except AssembleError SharedObjectTables := do
  let g ← registerShared inp.geometries []
  let c ← registerShared inp.cameras []
  let l ← registerShared inp.lights []
  let m ← registerShared inp.materials []
  .ok ⟨g, c, l, m⟩

/-- Modelled from the spec (sections 4.4 and 5): the whole assembly —
register all shared objects, then assemble the root nodes against the
resulting tables; any failure aborts the whole assembly with that error and
yields no document. -/
def assembleScene (inp : SceneInput) : Except AssembleError SceneDocument := do
  let t ← registerAll inp
  let roots ← assembleNodeList t inp.roots
  .ok ⟨roots, t⟩

/-- Discriminating tag of a `Nodes` value: which of the five variants it is,
numbered in declaration order. -/
def Nodes.variantTag : Nodes → Fin 5
  | .node _ => 0
  | .boneNode _ => 1
  | .geometryNode _ => 2
  | .cameraNode _ => 3
  | .lightNode _ => 4

/-! Helper lemmas about `Except`, used to reason about the monadic assembly
chains. -/

theorem except_bind_ok_iff {ε α β : Type} (x : Except ε α) (f : α → Except ε β) (b : β) :
    (x >>= f) = .ok b ↔ ∃ a, x = .ok a ∧ f a = .ok b := by
  cases x <;> simp [Bind.bind, Except.bind]

theorem except_bind_error_iff {ε α β : Type} (x : Except ε α) (f : α → Except ε β) (e : ε) :
    (x >>= f) = .error e ↔ x = .error e ∨ ∃ a, x = .ok a ∧ f a = .error e := by
  cases x <;> simp [Bind.bind, Except.bind]

theorem except_map_ok_iff {ε α β : Type} (x : Except ε α) (f : α → β) (b : β) :
    x.map f = .ok b ↔ ∃ a, x = .ok a ∧ f a = b := by
  cases x <;> simp [Except.map]

theorem except_map_error_iff {ε α β : Type} (x : Except ε α) (f : α → β) (e : ε) :
    x.map f = .error e ↔ x = .error e := by
  cases x <;> simp [Except.map]

/-- C9: the default geometric primitive for a Mesh is Triangles — the
`Default` implementation for `GeometricPrimitive` returns the `Triangles`
variant. -/
theorem geometric_primitive_default_is_triangles :
    GeometricPrimitive.default = GeometricPrimitive.triangles := rfl

/-- C2: every `Transformation` value is exactly one of Transform,
Translation, Rotation or Scale (exhaustive and mutually distinct); every
`Translation` and every `Scale` is one of the variants x, y, z, xyz and
carries 1 or 3 floats; every `Rotation` is one of the variants x, y, z, axis,
quaternion and carries 1 or 4 floats. -/
theorem transformation_variants :
    (∀ tr : Transformation,
      (∃ m, tr = .transform m) ∨ (∃ t, tr = .translation t) ∨
      (∃ r, tr = .rotation r) ∨ (∃ s, tr = .scale s))
    ∧ (∀ (m : Transform) (t : Translation), Transformation.transform m ≠ .translation t)
    ∧ (∀ (m : Transform) (r : Rotation), Transformation.transform m ≠ .rotation r)
    ∧ (∀ (m : Transform) (s : Scale), Transformation.transform m ≠ .scale s)
    ∧ (∀ (t : Translation) (r : Rotation), Transformation.translation t ≠ .rotation r)
    ∧ (∀ (t : Translation) (s : Scale), Transformation.translation t ≠ .scale s)
    ∧ (∀ (r : Rotation) (s : Scale), Transformation.rotation r ≠ .scale s)
    ∧ (∀ t : Translation,
        ((∃ a, t = .x a) ∨ (∃ a, t = .y a) ∨ (∃ a, t = .z a) ∨ ∃ a b c, t = .xyz a b c)
        ∧ (t.args.length = 1 ∨ t.args.length = 3))
    ∧ (∀ s : Scale,
        ((∃ a, s = .x a) ∨ (∃ a, s = .y a) ∨ (∃ a, s = .z a) ∨ ∃ a b c, s = .xyz a b c)
        ∧ (s.args.length = 1 ∨ s.args.length = 3))
    ∧ (∀ r : Rotation,
        ((∃ a, r = .x a) ∨ (∃ a, r = .y a) ∨ (∃ a, r = .z a) ∨
          (∃ angle ax ay az, r = .axis angle ax ay az) ∨
          ∃ w qx qy qz, r = .quaternion w qx qy qz)
        ∧ (r.args.length = 1 ∨ r.args.length = 4)) := by
  refine ⟨?_, ?_, ?_, ?_, ?_, ?_, ?_, ?_, ?_, ?_⟩
  · intro tr
    cases tr with
    | transform m => exact Or.inl ⟨m, rfl⟩
    | translation t => exact Or.inr (Or.inl ⟨t, rfl⟩)
    | rotation r => exact Or.inr (Or.inr (Or.inl ⟨r, rfl⟩))
    | scale s => exact Or.inr (Or.inr (Or.inr ⟨s, rfl⟩))
  · intro m t h; cases h
  · intro m r h; cases h
  · intro m s h; cases h
  · intro t r h; cases h
  · intro t s h; cases h
  · intro r s h; cases h
  · intro t
    cases t with
    | x a => exact ⟨Or.inl ⟨a, rfl⟩, Or.inl rfl⟩
    | y a => exact ⟨Or.inr (Or.inl ⟨a, rfl⟩), Or.inl rfl⟩
    | z a => exact ⟨Or.inr (Or.inr (Or.inl ⟨a, rfl⟩)), Or.inl rfl⟩
    | xyz a b c => exact ⟨Or.inr (Or.inr (Or.inr ⟨a, b, c, rfl⟩)), Or.inr rfl⟩
  · intro s
    cases s with
    | x a => exact ⟨Or.inl ⟨a, rfl⟩, Or.inl rfl⟩
    | y a => exact ⟨Or.inr (Or.inl ⟨a, rfl⟩), Or.inl rfl⟩
    | z a => exact ⟨Or.inr (Or.inr (Or.inl ⟨a, rfl⟩)), Or.inl rfl⟩
    | xyz a b c => exact ⟨Or.inr (Or.inr (Or.inr ⟨a, b, c, rfl⟩)), Or.inr rfl⟩
  · intro r
    cases r with
    | x a => exact ⟨Or.inl ⟨a, rfl⟩, Or.inl rfl⟩
    | y a => exact ⟨Or.inr (Or.inl ⟨a, rfl⟩), Or.inl rfl⟩
    | z a => exact ⟨Or.inr (Or.inr (Or.inl ⟨a, rfl⟩)), Or.inl rfl⟩
    | axis angle ax ay az =>
      exact ⟨Or.inr (Or.inr (Or.inr (Or.inl ⟨angle, ax, ay, az, rfl⟩))), Or.inr rfl⟩
    | quaternion w qx qy qz =>
      exact ⟨Or.inr (Or.inr (Or.inr (Or.inr ⟨w, qx, qy, qz, rfl⟩))), Or.inr rfl⟩

/-- C2 witness: the theorem applied at concrete inputs — a concrete
`Transform` is not a `Translation`, and the concrete translation
`Translation.xyz 1 2 3` carries 1 or 3 floats. -/
theorem transformation_variants_witness :
    Transformation.transform ⟨⟨List.replicate 16 0, by decide⟩⟩ ≠
      Transformation.translation (.x 0) ∧
    ((Translation.xyz 1 2 3).args.length = 1 ∨ (Translation.xyz 1 2 3).args.length = 3) :=
  ⟨transformation_variants.2.1 _ _, (transformation_variants.2.2.2.2.2.2.2.1 _).2⟩

/-- C7: every `Value` curve is exactly one of Constant, Linear, Bezier, Tcb;
however, evaluating the source's documented component reading of a
`Value::Tcb` key at the concrete key (0, 1, 2, 3) yields bias = 2 for the
third component and continuity = 3 for the fourth — the source doc comment
orders the components (value, tension, bias, continuity), not
(value, tension, continuity, bias) as the claim states. -/
theorem value_variants_and_tcb_component_order :
    (∀ v : Value,
      (∃ ks, v = .constant ks) ∨ (∃ ks, v = .linear ks) ∨
      (∃ ks, v = .bezier ks) ∨ ∃ ks, v = .tcb ks)
    ∧ TcbKey.value (0, 1, 2, 3) = 0
    ∧ TcbKey.tension (0, 1, 2, 3) = 1
    ∧ TcbKey.bias (0, 1, 2, 3) = 2
    ∧ TcbKey.continuity (0, 1, 2, 3) = 3 := by
  refine ⟨?_, rfl, rfl, rfl, rfl⟩
  intro v
  cases v with
  | constant ks => exact Or.inl ⟨ks, rfl⟩
  | linear ks => exact Or.inr (Or.inl ⟨ks, rfl⟩)
  | bezier ks => exact Or.inr (Or.inr (Or.inl ⟨ks, rfl⟩))
  | tcb ks => exact Or.inr (Or.inr (Or.inr ⟨ks, rfl⟩))

/-- C10: every `Nodes` value is one of the five variants Node, BoneNode,
GeometryNode, CameraNode, LightNode (exhaustive, and distinguished by
`variantTag`, so there are exactly these five), and every variant carries the
four common `node!` fields — optional name, ordered transformations, ordered
animations, ordered children — extracted uniformly by `commonFields`. -/
theorem nodes_five_variants_with_common_fields :
    (∀ n : Nodes,
      (∃ x, n = .node x) ∨ (∃ x, n = .boneNode x) ∨ (∃ x, n = .geometryNode x) ∨
      (∃ x, n = .cameraNode x) ∨ ∃ x, n = .lightNode x)
    ∧ (∀ x : Node, (Nodes.node x).variantTag = 0 ∧
        (Nodes.node x).commonFields =
          ⟨x.name, x.transformations, x.animations, x.children⟩)
    ∧ (∀ x : BoneNode, (Nodes.boneNode x).variantTag = 1 ∧
        (Nodes.boneNode x).commonFields =
          ⟨x.name, x.transformations, x.animations, x.children⟩)
    ∧ (∀ x : GeometryNode, (Nodes.geometryNode x).variantTag = 2 ∧
        (Nodes.geometryNode x).commonFields =
          ⟨x.name, x.transformations, x.animations, x.children⟩)
    ∧ (∀ x : CameraNode, (Nodes.cameraNode x).variantTag = 3 ∧
        (Nodes.cameraNode x).commonFields =
          ⟨x.name, x.transformations, x.animations, x.children⟩)
    ∧ (∀ x : LightNode, (Nodes.lightNode x).variantTag = 4 ∧
        (Nodes.lightNode x).commonFields =
          ⟨x.name, x.transformations, x.animations, x.children⟩) := by
  refine ⟨?_, fun x => ⟨rfl, rfl⟩, fun x => ⟨rfl, rfl⟩, fun x => ⟨rfl, rfl⟩,
    fun x => ⟨rfl, rfl⟩, fun x => ⟨rfl, rfl⟩⟩
  intro n
  cases n with
  | node x => exact Or.inl ⟨x, rfl⟩
  | boneNode x => exact Or.inr (Or.inl ⟨x, rfl⟩)
  | geometryNode x => exact Or.inr (Or.inr (Or.inl ⟨x, rfl⟩))
  | cameraNode x => exact Or.inr (Or.inr (Or.inr (Or.inl ⟨x, rfl⟩)))
  | lightNode x => exact Or.inr (Or.inr (Or.inr (Or.inr ⟨x, rfl⟩)))

/-- C1: every assembled `Track` has as many keys in its Time curve as in its
Value curve, and assembling a track whose Time curve has 3 keys and whose
Value curve has 4 keys fails with the key-count mismatch error. -/
theorem track_key_count_invariant :
    (∀ (inp : TrackInput) (tr : Track), assembleTrack inp = .ok tr →
      tr.time.keyCount = tr.value.keyCount)
    ∧ (∀ (target : TrackTarget) (a b c w x y z : F32),
        assembleTrack ⟨target, .linear [a, b, c], .linear [w, x, y, z]⟩ =
          .error (.keyCountMismatch 3 4)) := by
  constructor
  · intro inp tr h
    unfold assembleTrack at h
    split at h
    · next hc =>
      injection h with h2
      subst h2
      exact hc
    · cases h
  · intro target a b c w x y z
    rfl

/-- C1 witness: assembling a concrete 2-key track succeeds and the theorem
yields the key-count equality for it. -/
theorem track_key_count_invariant_witness :
    (Track.mk (.morphWeight ⟨0, 0⟩) (.linear [0, 1]) (.linear [5, 6])).time.keyCount =
      (Track.mk (.morphWeight ⟨0, 0⟩) (.linear [0, 1]) (.linear [5, 6])).value.keyCount :=
  track_key_count_invariant.1 ⟨.morphWeight ⟨0, 0⟩, .linear [0, 1], .linear [5, 6]⟩ _ rfl

/-- Validation of morph weights: when it succeeds, the target indices of the
list are pairwise distinct and disjoint from the indices already seen. -/
theorem validateMorphWeights_ok_distinct :
    ∀ (l : List MorphWeight) (seen : List Nat), validateMorphWeights l seen = .ok () →
      (l.map MorphWeight.target_index).Nodup ∧
      ∀ i ∈ l.map MorphWeight.target_index, i ∉ seen := by
  intro l
  induction l with
  | nil => intro seen _; simp
  | cons w rest ih =>
    intro seen h
    unfold validateMorphWeights at h
    split at h
    · cases h
    · next hmem =>
      obtain ⟨hnd, hseen⟩ := ih _ h
      refine ⟨List.nodup_cons.2 ⟨?_, hnd⟩, ?_⟩
      · intro hin
        exact (hseen _ hin) (List.mem_cons_self _ _)
      · intro i hi
        simp only [List.map_cons, List.mem_cons] at hi
        rcases hi with hi | hi
        · subst hi; exact hmem
        · intro hcontra
          exact (hseen _ hi) (List.mem_cons_of_mem _ hcontra)

/-- C5: for every assembled GeometryNode the morph-weight target indices are
pairwise distinct, and assembling a GeometryNode whose morph-weight list has
two entries with target index 2 fails with the duplicate-morph-target error
at index 2. -/
theorem geometry_node_morph_targets_unique :
    (∀ (t : SharedObjectTables) (inp : NodeInput) (n : GeometryNode),
      assembleNode t inp = .ok (.geometryNode n) →
      (n.morph_weights.map MorphWeight.target_index).Nodup)
    ∧ (∀ (t : SharedObjectTables) (name : Option Name)
        (vis shadows blur : Option Bool) (gref : String) (g : GeometryObject)
        (w1 w2 : F32),
        resolveShared t.geometries gref = .ok g →
        assembleNode t
            (.geometryNode name [] [] [] vis shadows blur gref [] [⟨2, w1⟩, ⟨2, w2⟩]) =
          .error (.duplicateMorphTarget 2)) := by
  constructor
  · intro t inp n h
    cases inp <;> simp only [assembleNode, except_bind_ok_iff] at h
    case node =>
      obtain ⟨_, _, _, _, _, _, hlast⟩ := h
      cases hlast
    case boneNode =>
      obtain ⟨_, _, _, _, _, _, hlast⟩ := h
      cases hlast
    case geometryNode name rawts anims children vis shadows blur gref mrefs mws =>
      obtain ⟨_, _, _, _, _, _, _, _, _, _, u, hval, hlast⟩ := h
      injection hlast with hlast2
      injection hlast2 with hlast3
      cases u
      have := validateMorphWeights_ok_distinct mws [] hval
      rw [← hlast3]
      exact this.1
    case cameraNode =>
      obtain ⟨_, _, _, _, _, _, _, _, hlast⟩ := h
      cases hlast
    case lightNode =>
      obtain ⟨_, _, _, _, _, _, _, _, hlast⟩ := h
      cases hlast
  · intro t name vis shadows blur gref g w1 w2 hres
    unfold assembleNode
    rw [hres]
    rfl

/-- C5 witness: the theorem applied to a concrete table holding one geometry
under the name G and a concrete GeometryNode input with two morph weights at
target index 2. -/
theorem geometry_node_morph_targets_unique_witness :
    assembleNode ⟨[("G", ⟨true, true, true, [], []⟩)], [], [], []⟩
        (.geometryNode none [] [] [] none none none "G" [] [⟨2, 0⟩, ⟨2, 1⟩]) =
      .error (.duplicateMorphTarget 2) :=
  geometry_node_morph_targets_unique.2 _ none none none none "G" _ 0 1 rfl

/-- Classification of a Translation succeeds exactly when the argument count
matches the kind's arity. -/
theorem classifyTranslation_ok_iff (k : TranslationKind) (args : List F32) :
    (∃ tr, classifyTranslation k args = .ok tr) ↔ args.length = k.arity := by
  cases k <;> rcases args with _ | ⟨a, _ | ⟨b, _ | ⟨c, _ | ⟨d, rest⟩⟩⟩⟩ <;>
    simp [classifyTranslation, TranslationKind.arity]

/-- Classification of a Translation with the wrong argument count fails with
the arity-mismatch error. -/
theorem classifyTranslation_arity_error (k : TranslationKind) (args : List F32) :
    args.length ≠ k.arity →
    classifyTranslation k args = .error (.arityMismatch k.arity args.length) := by
  cases k <;> rcases args with _ | ⟨a, _ | ⟨b, _ | ⟨c, _ | ⟨d, rest⟩⟩⟩⟩ <;>
    simp [classifyTranslation, TranslationKind.arity]

/-- Classification of a Rotation succeeds exactly when the argument count
matches the kind's arity. -/
theorem classifyRotation_ok_iff (k : RotationKind) (args : List F32) :
    (∃ tr, classifyRotation k args = .ok tr) ↔ args.length = k.arity := by
  cases k <;> rcases args with _ | ⟨a, _ | ⟨b, _ | ⟨c, _ | ⟨d, _ | ⟨e, rest⟩⟩⟩⟩⟩ <;>
    simp [classifyRotation, RotationKind.arity]

/-- Classification of a Rotation with the wrong argument count fails with the
arity-mismatch error. -/
theorem classifyRotation_arity_error (k : RotationKind) (args : List F32) :
    args.length ≠ k.arity →
    classifyRotation k args = .error (.arityMismatch k.arity args.length) := by
  cases k <;> rcases args with _ | ⟨a, _ | ⟨b, _ | ⟨c, _ | ⟨d, _ | ⟨e, rest⟩⟩⟩⟩⟩ <;>
    simp [classifyRotation, RotationKind.arity]

/-- Classification of a Scale succeeds exactly when the argument count
matches the kind's arity. -/
theorem classifyScale_ok_iff (k : TranslationKind) (args : List F32) :
    (∃ tr, classifyScale k args = .ok tr) ↔ args.length = k.arity := by
  cases k <;> rcases args with _ | ⟨a, _ | ⟨b, _ | ⟨c, _ | ⟨d, rest⟩⟩⟩⟩ <;>
    simp [classifyScale, TranslationKind.arity]

/-- Classification of a Scale with the wrong argument count fails with the
arity-mismatch error. -/
theorem classifyScale_arity_error (k : TranslationKind) (args : List F32) :
    args.length ≠ k.arity →
    classifyScale k args = .error (.arityMismatch k.arity args.length) := by
  cases k <;> rcases args with _ | ⟨a, _ | ⟨b, _ | ⟨c, _ | ⟨d, rest⟩⟩⟩⟩ <;>
    simp [classifyScale, TranslationKind.arity]

/-- C3: the variant classifier accepts a (category, kind, args) triple
exactly when the kind is recognized for that category and the argument count
matches the variant's arity; an unrecognized kind fails with the
unknown-variant error carrying the category and kind, and a recognized kind
with the wrong argument count fails with the arity-mismatch error carrying
the expected and actual counts. -/
theorem classifier_accepts_iff :
    (∀ (cat : Category) (kind : String) (args : List F32),
      (∃ tr, classify cat kind args = .ok tr) ↔
        ∃ n, recognizedArity cat kind = some n ∧ args.length = n)
    ∧ (∀ (cat : Category) (kind : String) (args : List F32),
        recognizedArity cat kind = none →
        classify cat kind args = .error (.unknownVariant cat kind))
    ∧ (∀ (cat : Category) (kind : String) (args : List F32) (n : Nat),
        recognizedArity cat kind = some n → args.length ≠ n →
        classify cat kind args = .error (.arityMismatch n args.length)) := by
  refine ⟨?_, ?_, ?_⟩
  · intro cat kind args
    cases cat with
    | translation =>
      cases hk : parseTranslationKind kind with
      | none => simp [classify, recognizedArity, hk]
      | some k =>
        have hr : recognizedArity Category.translation kind = some k.arity := by
          simp [recognizedArity, hk]
        have hc : classify Category.translation kind args =
            (classifyTranslation k args).map Transformation.translation := by
          simp [classify, hk]
        simp only [hr, hc]
        constructor
        · rintro ⟨tr, htr⟩
          rw [except_map_ok_iff] at htr
          obtain ⟨a, ha, -⟩ := htr
          exact ⟨k.arity, rfl, (classifyTranslation_ok_iff k args).1 ⟨a, ha⟩⟩
        · rintro ⟨n, hn, hlen⟩
          injection hn with hn
          subst hn
          obtain ⟨a, ha⟩ := (classifyTranslation_ok_iff k args).2 hlen
          exact ⟨Transformation.translation a, by rw [ha]; rfl⟩
    | rotation =>
      cases hk : parseRotationKind kind with
      | none => simp [classify, recognizedArity, hk]
      | some k =>
        have hr : recognizedArity Category.rotation kind = some k.arity := by
          simp [recognizedArity, hk]
        have hc : classify Category.rotation kind args =
            (classifyRotation k args).map Transformation.rotation := by
          simp [classify, hk]
        simp only [hr, hc]
        constructor
        · rintro ⟨tr, htr⟩
          rw [except_map_ok_iff] at htr
          obtain ⟨a, ha, -⟩ := htr
          exact ⟨k.arity, rfl, (classifyRotation_ok_iff k args).1 ⟨a, ha⟩⟩
        · rintro ⟨n, hn, hlen⟩
          injection hn with hn
          subst hn
          obtain ⟨a, ha⟩ := (classifyRotation_ok_iff k args).2 hlen
          exact ⟨Transformation.rotation a, by rw [ha]; rfl⟩
    | scale =>
      cases hk : parseTranslationKind kind with
      | none => simp [classify, recognizedArity, hk]
      | some k =>
        have hr : recognizedArity Category.scale kind = some k.arity := by
          simp [recognizedArity, hk]
        have hc : classify Category.scale kind args =
            (classifyScale k args).map Transformation.scale := by
          simp [classify, hk]
        simp only [hr, hc]
        constructor
        · rintro ⟨tr, htr⟩
          rw [except_map_ok_iff] at htr
          obtain ⟨a, ha, -⟩ := htr
          exact ⟨k.arity, rfl, (classifyScale_ok_iff k args).1 ⟨a, ha⟩⟩
        · rintro ⟨n, hn, hlen⟩
          injection hn with hn
          subst hn
          obtain ⟨a, ha⟩ := (classifyScale_ok_iff k args).2 hlen
          exact ⟨Transformation.scale a, by rw [ha]; rfl⟩
  · intro cat kind args hnone
    cases cat with
    | translation =>
      cases hk : parseTranslationKind kind with
      | none => simp [classify, hk]
      | some k => rw [recognizedArity, hk] at hnone; cases hnone
    | rotation =>
      cases hk : parseRotationKind kind with
      | none => simp [classify, hk]
      | some k => rw [recognizedArity, hk] at hnone; cases hnone
    | scale =>
      cases hk : parseTranslationKind kind with
      | none => simp [classify, hk]
      | some k => rw [recognizedArity, hk] at hnone; cases hnone
  · intro cat kind args n hsome hlen
    cases cat with
    | translation =>
      cases hk : parseTranslationKind kind with
      | none => rw [recognizedArity, hk] at hsome; cases hsome
      | some k =>
        rw [recognizedArity, hk] at hsome
        injection hsome with hn
        subst hn
        simp [classify, hk, classifyTranslation_arity_error k args hlen, Except.map]
    | rotation =>
      cases hk : parseRotationKind kind with
      | none => rw [recognizedArity, hk] at hsome; cases hsome
      | some k =>
        rw [recognizedArity, hk] at hsome
        injection hsome with hn
        subst hn
        simp [classify, hk, classifyRotation_arity_error k args hlen, Except.map]
    | scale =>
      cases hk : parseTranslationKind kind with
      | none => rw [recognizedArity, hk] at hsome; cases hsome
      | some k =>
        rw [recognizedArity, hk] at hsome
        injection hsome with hn
        subst hn
        simp [classify, hk, classifyScale_arity_error k args hlen, Except.map]

/-- C3 witness: the theorem applied at concrete triples — the unrecognized
kind w for Translation fails with the unknown-variant error, and the
recognized Rotation kind axis with 2 instead of 4 arguments fails with the
arity-mismatch error. -/
theorem classifier_accepts_iff_witness :
    classify .translation "w" [] = .error (.unknownVariant .translation "w") ∧
    classify .rotation "axis" [1, 2] = .error (.arityMismatch 4 2) :=
  ⟨classifier_accepts_iff.2.1 _ _ _ (by decide),
    classifier_accepts_iff.2.2 _ _ _ _ (by decide) (by decide)⟩

/-- C4: resolution against the shared object table is deterministic within
one assembly (two resolutions of the same name agree), registering the single
declaration Cube001 yields a table with exactly one entry for that name, and
two GeometryNodes both referencing Cube001 assemble to nodes holding the very
object stored in that table entry. -/
theorem shared_object_resolution_idempotent :
    (∀ (t : List (String × GeometryObject)) (name : String) (o1 o2 : GeometryObject),
      resolveShared t name = .ok o1 → resolveShared t name = .ok o2 → o1 = o2)
    ∧ (∀ g : GeometryObject,
        registerShared [("Cube001", g)] ([] : List (String × GeometryObject)) =
          .ok [("Cube001", g)])
    ∧ (∀ g : GeometryObject, (sharedKeys [("Cube001", g)]).count "Cube001" = 1)
    ∧ (∀ g : GeometryObject,
        assembleNode ⟨[("Cube001", g)], [], [], []⟩
            (.geometryNode (some "n1") [] [] [] none none none "Cube001" [] []) =
          .ok (.geometryNode (.mk (some "n1") [] [] [] none none none g [] [])) ∧
        assembleNode ⟨[("Cube001", g)], [], [], []⟩
            (.geometryNode (some "n2") [] [] [] none none none "Cube001" [] []) =
          .ok (.geometryNode (.mk (some "n2") [] [] [] none none none g [] [])) ∧
        (Nodes.geometryNode (.mk (some "n1") [] [] [] none none none g [] [])).geometryOf =
          (Nodes.geometryNode (.mk (some "n2") [] [] [] none none none g [] [])).geometryOf) := by
  refine ⟨?_, fun g => rfl, fun g => rfl, fun g => ⟨rfl, rfl, rfl⟩⟩
  intro t name o1 o2 h1 h2
  rw [h1] at h2
  injection h2

/-- C4 witness: the theorem applied at a concrete table, discharging the two
resolution hypotheses by evaluation. -/
theorem shared_object_resolution_idempotent_witness :
    (⟨true, true, true, [], []⟩ : GeometryObject) = ⟨true, true, true, [], []⟩ :=
  shared_object_resolution_idempotent.1 [("Cube001", ⟨true, true, true, [], []⟩)]
    "Cube001" _ _ rfl rfl

/-- Registration keeps the table's declared names pairwise distinct. -/
theorem registerShared_ok_nodup_aux (α : Type) :
    ∀ (decls t0 t : List (String × α)), registerShared decls t0 = .ok t →
      (sharedKeys t0).Nodup → (sharedKeys t).Nodup := by
  intro decls
  induction decls with
  | nil =>
    intro t0 t h hnd
    unfold registerShared at h
    injection h with h2
    subst h2
    exact hnd
  | cons d rest ih =>
    intro t0 t h hnd
    obtain ⟨n, o⟩ := d
    unfold registerShared at h
    cases hins : insertShared t0 n o with
    | error e => rw [hins] at h; cases h
    | ok t1 =>
      rw [hins] at h
      apply ih _ _ h
      unfold insertShared at hins
      split at hins
      · cases hins
      · next hnotmem =>
        injection hins with h3
        subst h3
        have hperm : List.Perm (sharedKeys t0 ++ [n]) (n :: sharedKeys t0) :=
          List.perm_append_singleton n (sharedKeys t0)
        have : (sharedKeys (t0 ++ [(n, o)])) = sharedKeys t0 ++ [n] := by
          simp [sharedKeys]
        rw [this]
        exact hperm.nodup_iff.2 (List.nodup_cons.2 ⟨hnotmem, hnd⟩)

/-- C8: inserting a shared object into the table under an already-used name
fails with the duplicate-object-name error carrying that name; a successful
insert requires a fresh name and appends exactly that one entry; hence a
successfully registered table never holds two declarations of the same name
(its keys are pairwise distinct) — sharing can only happen by referencing. -/
theorem duplicate_object_name_rejected :
    (∀ (α : Type) (t : List (String × α)) (name : String) (obj : α),
      name ∈ sharedKeys t → insertShared t name obj = .error (.duplicateObjectName name))
    ∧ (∀ (α : Type) (t t2 : List (String × α)) (name : String) (obj : α),
        insertShared t name obj = .ok t2 →
        name ∉ sharedKeys t ∧ sharedKeys t2 = sharedKeys t ++ [name])
    ∧ (∀ (α : Type) (decls t : List (String × α)),
        registerShared decls [] = .ok t → (sharedKeys t).Nodup) := by
  refine ⟨?_, ?_, ?_⟩
  · intro α t name obj hmem
    unfold insertShared
    rw [if_pos hmem]
  · intro α t t2 name obj h
    unfold insertShared at h
    split at h
    · cases h
    · next hnotmem =>
      injection h with h2
      subst h2
      exact ⟨hnotmem, by simp [sharedKeys]⟩
  · intro α decls t h
    exact registerShared_ok_nodup_aux α decls [] t h (by simp [sharedKeys])

/-- C8 witness: the theorem applied at a concrete one-entry table and a
second object declared under the same name. -/
theorem duplicate_object_name_rejected_witness :
    insertShared [("Cube001", (⟨true, true, true, [], []⟩ : GeometryObject))] "Cube001"
        (⟨false, false, false, [], []⟩ : GeometryObject) =
      .error (.duplicateObjectName "Cube001") :=
  duplicate_object_name_rejected.1 GeometryObject _ _ _ (by decide)

/-- C6: assembly is all-or-nothing — for every input the result is either a
complete document or a single error and never both; a failure in the
registration pass is the result of the whole assembly, a failure while
assembling the node trees is the result of the whole assembly, and within a
sibling list the error of the first failing node is the error of the whole
list. -/
theorem assembly_all_or_nothing :
    (∀ inp : SceneInput,
      (∃ doc, assembleScene inp = .ok doc) ∨ ∃ e, assembleScene inp = .error e)
    ∧ (∀ (inp : SceneInput) (e : AssembleError),
        registerAll inp = .error e → assembleScene inp = .error e)
    ∧ (∀ (inp : SceneInput) (t : SharedObjectTables) (e : AssembleError),
        registerAll inp = .ok t → assembleNodeList t inp.roots = .error e →
        assembleScene inp = .error e)
    ∧ (∀ (t : SharedObjectTables) (pre : List NodeInput) (x : NodeInput)
        (post : List NodeInput) (ns : List Nodes) (e : AssembleError),
        assembleNodeList t pre = .ok ns → assembleNode t x = .error e →
        assembleNodeList t (pre ++ x :: post) = .error e)
    ∧ (∀ (inp : SceneInput) (doc : SceneDocument) (e : AssembleError),
        assembleScene inp = .ok doc → assembleScene inp ≠ .error e) := by
  refine ⟨?_, ?_, ?_, ?_, ?_⟩
  · intro inp
    cases assembleScene inp with
    | ok doc => exact Or.inl ⟨doc, rfl⟩
    | error e => exact Or.inr ⟨e, rfl⟩
  · intro inp e hreg
    unfold assembleScene
    rw [hreg]
    rfl
  · intro inp t e hreg hlist
    unfold assembleScene
    rw [hreg]
    show assembleNodeList t inp.roots >>= _ = _
    rw [hlist]
    rfl
  · intro t pre
    induction pre with
    | nil =>
      intro x post ns e _ hx
      rw [List.nil_append]
      simp only [assembleNodeList]
      rw [hx]
      rfl
    | cons y rest ih =>
      intro x post ns e hpre hx
      simp only [assembleNodeList, except_bind_ok_iff] at hpre
      obtain ⟨n0, hy, ns1, hrest0, -⟩ := hpre
      rw [List.cons_append]
      simp only [assembleNodeList]
      rw [hy]
      show (assembleNodeList t (rest ++ x :: post) >>= fun ns2 => Except.ok (n0 :: ns2)) =
        Except.error e
      rw [ih x post ns1 e hrest0 hx]
      rfl
  · intro inp doc e hok
    rw [hok]
    intro hcontra
    cases hcontra

/-- C6 witness: the theorem applied at a concrete input whose registration
pass fails on a duplicate object name; the whole assembly returns exactly
that error. -/
theorem assembly_all_or_nothing_witness :
    assembleScene
        ⟨[("A", ⟨true, true, true, [], []⟩), ("A", ⟨true, true, true, [], []⟩)],
          [], [], [], []⟩ =
      .error (.duplicateObjectName "A") :=
  assembly_all_or_nothing.2.1 _ _ rfl

end Opengex
